import Mathlib

/-!
Verification development for the BRIDeal JD Maintain-Quote API client
(`app/services/api_clients/jd_maintain_quote_client.py`).

The HTTP request/retry/error-mapping engine (`_request`), the session
discipline (`_ensure_session`) and the derived `health_check` are embedded
shallowly.  External collaborators (the aiohttp transport, the JSON
decoder and the credential provider) are represented by an explicit
environment record: each attempt's response, the token fetched per
attempt, and the outcome of the refresh call are given by the
environment, and `json.loads` is an abstract deterministic oracle
`parse : String → Option PyVal`.
-/

namespace BRIDeal

/-- Severity levels of `ErrorSeverity`.
Modelled from the spec: `app/core/exceptions.py` is not part of the
sources; §4.2 gives the ordered enum LOW < MEDIUM < HIGH < CRITICAL. -/
inductive ErrorSeverity where
  | LOW
  | MEDIUM
  | HIGH
  | CRITICAL
deriving DecidableEq, Repr

/-- Error categories of `ErrorCategory`.
Modelled from the spec: §4.2 gives the closed set NETWORK,
AUTHENTICATION, SYSTEM, VALIDATION. Only the first three occur in the
client under verification. -/
inductive ErrorCategory where
  | NETWORK
  | AUTHENTICATION
  | SYSTEM
  | VALIDATION
deriving DecidableEq, Repr

/-- A Python value occurring in the `details` mapping of an error:
strings (URL, method, bodies, exception names), integers (HTTP status),
severities and categories (when a whole context is flattened into a dict
by `vars(...)` in `health_check`), and nested dicts. -/
inductive DetailVal where
  | str : String → DetailVal
  | nat : Nat → DetailVal
  | sev : ErrorSeverity → DetailVal
  | cat : ErrorCategory → DetailVal
  | dict : List (String × DetailVal) → DetailVal

/-- The structured error value.
Modelled from the spec: `app/core/exceptions.py` is not in the sources;
§4.2 requires code, message, severity, category and a string-keyed
details mapping defaulting to empty. -/
structure ErrorContext where
  code : String
  message : String
  severity : ErrorSeverity
  category : ErrorCategory
  details : List (String × DetailVal)

/-- The exception carrying an `ErrorContext`.
Modelled from the spec: `BRIDealException(context=err_ctx)` as used
throughout the client; every construction site in the client supplies a
context, so the context is total here. -/
structure BRIDealException where
  context : ErrorContext

/-- Two-variant result container.
Modelled from the spec: `app/core/result.py` is not in the sources;
§4.1 gives `success(value)` / `failure(error)` constructors and the
`is_success` / `is_failure` predicates. -/
inductive Result (α ε : Type) where
  | success : α → Result α ε
  | failure : ε → Result α ε

namespace Result

def is_success {α ε : Type} : Result α ε → Bool
  | .success _ => true
  | .failure _ => false

def is_failure {α ε : Type} : Result α ε → Bool
  | .success _ => false
  | .failure _ => true

end Result

/-- A Python/JSON value as produced by `json.loads` (or Python `None`).
`none` is the Python `None`, which is both the value of an empty
successful response and the decoding of the JSON literal `null`. -/
inductive PyVal where
  | none : PyVal
  | bool : Bool → PyVal
  | int : Int → PyVal
  | str : String → PyVal
  | list : List PyVal → PyVal
  | dict : List (String × PyVal) → PyVal

/-- A JSON-style payload dictionary (the `data` / `params` arguments). -/
abbrev Dict : Type := List (String × PyVal)

/-- Python exceptions that the `try` block of `_request` can observe,
split exactly the way the three `except` clauses discriminate them:
`aiohttp.ClientError`, `BRIDealException`, and anything else. -/
inductive PyExc where
  | clientError : String → String → PyExc
  | brideal : BRIDealException → PyExc
  | other : String → String → PyExc

/-- Response (status, body-text) of one send, or the exception raised by
`session.request` / `response.text()`. -/
inductive SendOutcome where
  | ok : Nat → String → SendOutcome
  | exc : PyExc → SendOutcome

/-- The environment of one `_request` execution: configuration, the
credential provider (`auth_manager`), the transport (indexed by attempt
number), and the JSON decoder oracle. -/
structure Env where
  baseUrl : String
  isOperational : Bool
  getToken : Nat → Result String BRIDealException
  refresh : Except PyExc Unit
  send : Nat → SendOutcome
  parse : String → Option PyVal

/-- The aiohttp client session resource: only its `closed` flag matters
to the client logic. -/
structure Session where
  closed : Bool
deriving DecidableEq, Repr

/-- `_ensure_session` (lines 29-32): if the session is absent or closed,
a fresh open session is installed; otherwise the session is kept.
(The surrounding lock is modelled separately for the concurrent claim;
this is the sequential state transformer.) -/
def ensure_session (s : Option Session) : Option Session :=
  match s with
  | Option.none => some { closed := false }
  | some sess => if sess.closed then some { closed := false } else some sess

/-- Python `s[:500]`: the first 500 characters of a string. -/
def pyTake500 (s : String) : String := ⟨s.data.take 500⟩

/-- Python `str.upper()` on an ASCII method name. -/
def pyUpper (s : String) : String := s.map Char.toUpper

/-- The keyword arguments passed to `session.request` (lines 91-96),
i.e. the outgoing HTTP request.  `json` is `some d` exactly when the
`json` keyword was attached (method in POST/PUT/PATCH); its payload `d`
is the (possibly absent, i.e. Python `None`) `data` argument. -/
structure SentRequest where
  method : String
  url : String
  headers : List (String × String)
  params : Option Dict
  json : Option (Option Dict)

/-- Line 92-93: `if params: request_kwargs["params"] = params` — the
params keyword is attached only when `params` is truthy (not `None`,
not empty). -/
def paramsKwarg (params : Option Dict) : Option Dict :=
  match params with
  | Option.none => Option.none
  | some [] => Option.none
  | some (p :: ps) => some (p :: ps)

/-- Lines 94-95: the `json` keyword is attached iff
`method.upper() in ["POST", "PUT", "PATCH"]`. -/
def jsonKwarg (method : String) (data : Option Dict) : Option (Option Dict) :=
  if pyUpper method ∈ ["POST", "PUT", "PATCH"] then some data else Option.none

/-- The exception raised at line 59 when the auth manager is not
operational. -/
def authManagerNotOperationalExc : BRIDealException :=
  { context :=
    { code := "AUTH_MANAGER_NOT_OPERATIONAL"
      message := "JD Auth Manager not configured or not operational."
      severity := .CRITICAL
      category := .AUTHENTICATION
      details := [] } }

/-- `_get_headers` (lines 51-70): raises (here: returns `.error`) when
the provider is not operational or the token fetch fails; otherwise
builds the bearer headers. -/
def _get_headers (env : Env) (attempt : Nat) :
    Except BRIDealException (List (String × String)) :=
  if !env.isOperational then .error authManagerNotOperationalExc
  else
    match env.getToken attempt with
    | .failure e => .error e
    | .success token =>
      .ok [("Authorization", "Bearer " ++ token), ("Accept", "application/json")]

/-- The failure built by the `except aiohttp.ClientError` clause
(lines 132-141), the `except BRIDealException` clause (lines 142-144)
and the generic `except Exception` clause (lines 145-158). -/
def handleExc (full_url method : String) : PyExc → BRIDealException
  | .clientError etype emsg =>
    { context :=
      { code := "AIOHTTP_CLIENT_ERROR"
        message := "Network or HTTP error: " ++ emsg
        severity := .HIGH
        category := .NETWORK
        details := [("url", .str full_url), ("method", .str method),
                    ("error_type", .str etype), ("original_error", .str emsg)] } }
  | .brideal e => e
  | .other etype emsg =>
    { context :=
      { code := "UNEXPECTED_CLIENT_ERROR"
        message := "An unexpected error occurred: " ++ emsg
        severity := .CRITICAL
        category := .SYSTEM
        details := [("url", .str full_url), ("method", .str method),
                    ("error_type", .str etype)] } }

/-- The failure built at lines 105-114 for a final HTTP status ≥ 400. -/
def apiErrorExc (full_url method : String) (status : Nat) (body : String) :
    BRIDealException :=
  { context :=
    { code := "API_ERROR_" ++ toString status
      message := "API Error: " ++ toString status
      severity := .HIGH
      category := .NETWORK
      details := [("url", .str full_url), ("method", .str method),
                  ("status", .nat status), ("response", .str (pyTake500 body))] } }

/-- The failure built at lines 121-130 for a non-JSON success body. -/
def jsonDecodeErrorExc (full_url method : String) (body : String) :
    BRIDealException :=
  { context :=
    { code := "JSON_DECODE_ERROR"
      message := "Failed to decode JSON response"
      severity := .HIGH
      category := .NETWORK
      details := [("url", .str full_url), ("method", .str method),
                  ("response", .str (pyTake500 body))] } }

/-- The failure built at lines 160-168, after the `for` loop falls
through. -/
def tokenRefreshFailureExc (full_url method : String) : BRIDealException :=
  { context :=
    { code := "TOKEN_REFRESH_FAILURE"
      message := "Request failed after token refresh attempt."
      severity := .HIGH
      category := .AUTHENTICATION
      details := [("url", .str full_url), ("method", .str method)]
      } }

/-- The failure built at lines 76-83 when the session guard fires. -/
def sessionNotInitializedExc : BRIDealException :=
  { context :=
    { code := "SESSION_NOT_INITIALIZED"
      message := "Session not initialized"
      severity := .CRITICAL
      category := .SYSTEM
      details := [] } }

/-- The `request_kwargs` record built at lines 91-96 from the fetched
headers. -/
def requestKwargs (method full_url : String) (data params : Option Dict)
    (headers : List (String × String)) : SentRequest :=
  { method := method, url := full_url, headers := headers,
    params := paramsKwarg params, json := jsonKwarg method data }

/-- Classification of a response that was not consumed by the
401-retry guard (lines 103-130): status ≥ 400 is an `API_ERROR_`
failure, an empty body is `Success(None)`, a parseable body is
`Success(parsed)`, and an unparseable body is a `JSON_DECODE_ERROR`
failure. -/
def classifyResponse (parse : String → Option PyVal)
    (full_url method : String) (status : Nat) (body : String) :
    Result PyVal BRIDealException :=
  if status ≥ 400 then .failure (apiErrorExc full_url method status body)
  else if body = "" then .success PyVal.none
  else
    match parse body with
    | some v => .success v
    | Option.none => .failure (jsonDecodeErrorExc full_url method body)

/-- Outcome of one iteration of the `for attempt in range(2)` loop:
either the loop returns a result (`done`, recording whether a request
was sent on this iteration and whether `refresh_token` was called), or
the `continue` at line 101 runs (`retry`: a request was sent, a 401 was
received on attempt 0, and the refresh call returned normally). -/
inductive AttemptOut where
  | done : Option SentRequest → Bool → Result PyVal BRIDealException → AttemptOut
  | retry : SentRequest → AttemptOut

/-- One iteration of the attempt loop (the `try` block, lines 88-158):
fetch headers, build the request kwargs, send, then classify
the response, with the three `except` clauses mapping exceptions to
failures. -/
def oneAttempt (env : Env) (method full_url : String)
    (data : Option Dict) (params : Option Dict) (attempt : Nat) : AttemptOut :=
  match _get_headers env attempt with
  | .error e => .done Option.none false (.failure e)
  | .ok headers =>
    let req : SentRequest := requestKwargs method full_url data params headers
    match env.send attempt with
    | .exc e => .done (some req) false (.failure (handleExc full_url method e))
    | .ok status body =>
      if status = 401 ∧ attempt = 0 then
        match env.refresh with
        | .error e => .done (some req) true (.failure (handleExc full_url method e))
        | .ok _ => .retry req
      else
        .done (some req) false
          (classifyResponse env.parse full_url method status body)

/-- The observable outcome of one `_request` execution: the returned
`Result`, the outgoing HTTP requests actually handed to
`session.request` (in order), and how often `refresh_token` was
called. -/
structure ReqTrace where
  result : Result PyVal BRIDealException
  sent : List SentRequest
  refreshes : Nat

/-- The `for attempt in range(2)` loop (lines 87-158), followed by the
fall-through failure of lines 160-168 when the attempt list is
exhausted. -/
def requestLoop (env : Env) (method full_url : String)
    (data : Option Dict) (params : Option Dict) :
    List Nat → List SentRequest → Nat → ReqTrace
  | [], sent, refr =>
    { result := .failure (tokenRefreshFailureExc full_url method)
      sent := sent, refreshes := refr }
  | attempt :: rest, sent, refr =>
    match oneAttempt env method full_url data params attempt with
    | .done sreq refreshed r =>
      { result := r
        sent := sent ++ sreq.toList
        refreshes := refr + (if refreshed then 1 else 0) }
    | .retry sreq =>
      requestLoop env method full_url data params rest (sent ++ [sreq]) (refr + 1)

/-- The body of `_request` after the session guard (lines 85-168). -/
def requestAfterGuard (env : Env) (method endpoint : String)
    (data : Option Dict) (params : Option Dict) : ReqTrace :=
  requestLoop env method (env.baseUrl ++ endpoint) data params [0, 1] [] 0

/-- `_request` (lines 72-168): ensure the session, guard against an
uninitialized session, then run the two-attempt loop. -/
def _request (env : Env) (session : Option Session) (method endpoint : String)
    (data : Option Dict) (params : Option Dict) : ReqTrace :=
  match ensure_session session with
  | Option.none => { result := .failure sessionNotInitializedExc, sent := [], refreshes := 0 }
  | some _ => requestAfterGuard env method endpoint data params

/-- `get_maintain_quote_details` (lines 197-199). -/
def get_maintain_quote_details (env : Env) (session : Option Session)
    (quote_id : String) : ReqTrace :=
  _request env session "GET"
    ("/om/maintainquote/api/v1/quotes/" ++ quote_id ++ "/maintain-quote-details")
    Option.none Option.none


namespace ReqTrace

/-- The error code of a failed request, if any. -/
def errCode (t : ReqTrace) : Option String :=
  match t.result with
  | .failure e => some e.context.code
  | .success _ => Option.none

/-- The error category of a failed request, if any. -/
def errCategory (t : ReqTrace) : Option ErrorCategory :=
  match t.result with
  | .failure e => some e.context.category
  | .success _ => Option.none

/-- The details mapping of a failed request, if any. -/
def errDetails (t : ReqTrace) : Option (List (String × DetailVal)) :=
  match t.result with
  | .failure e => some e.context.details
  | .success _ => Option.none

end ReqTrace

/-- Python `details.get("status") == 404` (line 333): the looked-up
detail value equals the integer 404. -/
def statusIs404 : Option DetailVal → Bool
  | some (.nat 404) => true
  | _ => false

/-- Python `vars(ctx)` on an `ErrorContext` (line 340): the context's
fields as a string-keyed dict. -/
def ctxVars (c : ErrorContext) : List (String × DetailVal) :=
  [("code", .str c.code), ("message", .str c.message),
   ("severity", .sev c.severity), ("category", .cat c.category),
   ("details", .dict c.details)]

/-- `health_check` (lines 309-370): refuse when not operational, probe
`get_maintain_quote_details` on a dummy quote id, accept a success or a
failure whose details carry status 404, and wrap any other failure's
context fields into a `HEALTH_CHECK_API_FAILURE` error.  The
no-context fallback branches (lines 350-370) are unreachable here
because every failure produced by the embedded client carries a
context. -/
def health_check (env : Env) (session : Option Session) :
    Result Bool BRIDealException :=
  if !env.isOperational then
    .failure { context :=
      { code := "HEALTH_CHECK_NOT_OPERATIONAL"
        message := "JDMaintainQuoteApiClient is not operational (auth manager issue or configuration)."
        severity := .MEDIUM
        category := .SYSTEM
        details := [] } }
  else
    match (get_maintain_quote_details env session "HEALTHCHECK_TEST_QUOTE").result with
    | .success _ => .success true
    | .failure e =>
      if statusIs404 (e.context.details.lookup "status") then .success true
      else
        .failure { context :=
          { code := "HEALTH_CHECK_API_FAILURE"
            message := "JD Maintain Quote API health check failed."
            severity := .MEDIUM
            category := .NETWORK
            details := ctxVars e.context } }

/-!
Concurrency model for `_ensure_session` under the per-instance
`asyncio.Lock` (lines 27-32).  Two cooperative callers each execute
`_ensure_session`; suspension can occur at the lock acquisition, while
the body `if self.session is None or self.session.closed:
self.session = aiohttp.ClientSession(...)` contains no `await` and is
a single atomic step.  Releasing the lock (leaving the `async with`)
is a separate step.
-/

/-- Program counter of one `_ensure_session` caller. -/
inductive EnsurePC where
  | atAcquire
  | inCrit
  | atRelease
  | finished
deriving DecidableEq, Repr

/-- Shared state of the client instance as seen by two concurrent
`_ensure_session` callers: whether an open session is installed, who
holds the lock, each caller's program counter, and how many fresh
sessions have been created. -/
structure LockSys where
  sessionLive : Bool
  lockHeld : Option (Fin 2)
  pc : Fin 2 → EnsurePC
  creations : Nat

/-- One scheduler step: caller `i` runs until its next suspension
point.  A caller at the lock acquisition blocks (no state change) while
the lock is held. -/
def lockStep (s : LockSys) (i : Fin 2) : LockSys :=
  match s.pc i with
  | .atAcquire =>
    match s.lockHeld with
    | Option.none => { s with lockHeld := some i, pc := Function.update s.pc i .inCrit }
    | some _ => s
  | .inCrit =>
    if s.sessionLive then
      { s with pc := Function.update s.pc i .atRelease }
    else
      { s with sessionLive := true, creations := s.creations + 1,
               pc := Function.update s.pc i .atRelease }
  | .atRelease =>
    { s with lockHeld := Option.none, pc := Function.update s.pc i .finished }
  | .finished => s

/-- Run a schedule (an arbitrary interleaving of the two callers). -/
def lockRun (s : LockSys) : List (Fin 2) → LockSys
  | [] => s
  | i :: rest => lockRun (lockStep s i) rest

/-- Initial state for the race the claim describes: both callers about
to run `_ensure_session`, the session absent (or closed — the code
treats both identically), the lock free. -/
def lockInit : LockSys :=
  { sessionLive := false, lockHeld := Option.none,
    pc := fun _ => .atAcquire, creations := 0 }

/-- Caller `i` is inside the lock-protected region. -/
def inLockRegion (s : LockSys) (i : Fin 2) : Prop :=
  s.pc i = .inCrit ∨ s.pc i = .atRelease

instance (s : LockSys) (i : Fin 2) : Decidable (inLockRegion s i) := by
  unfold inLockRegion; infer_instance


/-- Convenience accessor: one entry of the failure details. -/
def ReqTrace.errDetail (t : ReqTrace) (key : String) : Option DetailVal :=
  match t.result with
  | .failure e => e.context.details.lookup key
  | .success _ => Option.none

/-- Inductive invariant for the two-caller `_ensure_session` race:
at most one creation has happened, none while the session is still
absent, and a caller inside the lock-protected region holds the lock. -/
def LockInv (s : LockSys) : Prop :=
  s.creations ≤ 1 ∧
  (s.sessionLive = false → s.creations = 0) ∧
  (∀ i, inLockRegion s i → s.lockHeld = some i)

/-- Environment in which every attempt is answered with HTTP 401. -/
def c1env : Env :=
  { baseUrl := "https://jdquote2-api.deere.com"
    isOperational := true
    getToken := fun _ => .success "tok"
    refresh := .ok ()
    send := fun _ => .ok 401 "Unauthorized"
    parse := fun _ => Option.none }

/-- Environment answering 401 then 200 with a parseable body. -/
def c2env : Env :=
  { baseUrl := "https://jdquote2-api.deere.com"
    isOperational := true
    getToken := fun _ => .success "tok"
    refresh := .ok ()
    send := fun a => if a = 0 then .ok 401 "expired" else .ok 200 "body"
    parse := fun s => if s = "body" then some (.int 42) else Option.none }

/-- Environment whose credential provider is not operational. -/
def c3env : Env :=
  { baseUrl := "https://jdquote2-api.deere.com"
    isOperational := false
    getToken := fun _ => .success "tok"
    refresh := .ok ()
    send := fun _ => .ok 200 "body"
    parse := fun _ => Option.none }

/-- Environment answering 200 with a body the JSON decoder rejects. -/
def c4env : Env :=
  { baseUrl := "https://jdquote2-api.deere.com"
    isOperational := true
    getToken := fun _ => .success "tok"
    refresh := .ok ()
    send := fun _ => .ok 200 "not json"
    parse := fun _ => Option.none }

/-- A 10,000-character response body. -/
def bigBody : String := ⟨List.replicate 10000 'x'⟩

/-- Environment answering HTTP 500 with a 10,000-character body. -/
def c5env : Env :=
  { baseUrl := "https://jdquote2-api.deere.com"
    isOperational := true
    getToken := fun _ => .success "tok"
    refresh := .ok ()
    send := fun _ => .ok 500 bigBody
    parse := fun _ => Option.none }

/-- Environment whose transport raises `aiohttp.ClientError`. -/
def c6env : Env :=
  { baseUrl := "https://jdquote2-api.deere.com"
    isOperational := true
    getToken := fun _ => .success "tok"
    refresh := .ok ()
    send := fun _ => .exc (.clientError "ClientConnectorError" "Cannot connect to host")
    parse := fun _ => Option.none }

/-- Environment answering HTTP 404 (health-check probe scenario). -/
def c7env : Env :=
  { baseUrl := "https://jdquote2-api.deere.com"
    isOperational := true
    getToken := fun _ => .success "tok"
    refresh := .ok ()
    send := fun _ => .ok 404 "Not Found"
    parse := fun _ => Option.none }

/-- Environment for a GET carrying a (dropped) data payload. -/
def c9env : Env :=
  { baseUrl := "https://jdquote2-api.deere.com"
    isOperational := true
    getToken := fun _ => .success "tok"
    refresh := .ok ()
    send := fun _ => .ok 204 ""
    parse := fun _ => Option.none }


/-- The request kwargs built at lines 91-96 for an attempt whose
token fetch returned `t`. -/
def builtRequest (method url : String) (data params : Option Dict)
    (t : String) : SentRequest :=
  requestKwargs method url data params
    [("Authorization", "Bearer " ++ t), ("Accept", "application/json")]

/-- The single request sent by the C9 witness scenario: a GET carrying
a data payload that the client drops. -/
def c9req : SentRequest :=
  requestKwargs "GET" (c9env.baseUrl ++ "/widgets/42")
    (some [("a", PyVal.int 1)]) Option.none
    [("Authorization", "Bearer " ++ "tok"), ("Accept", "application/json")]

/-! ### Helper lemmas -/

theorem ensure_session_isSome (s : Option Session) :
    ∃ c, ensure_session s = some c := by
  cases s with
  | none => exact ⟨{ closed := false }, rfl⟩
  | some sess => cases h : sess.closed <;> simp [ensure_session, h]

theorem request_eq_afterGuard (env : Env) (session : Option Session)
    (method endpoint : String) (data : Option Dict) (params : Option Dict) :
    _request env session method endpoint data params =
      requestAfterGuard env method endpoint data params := by
  obtain ⟨c, hc⟩ := ensure_session_isSome session
  unfold _request
  rw [hc]

theorem pyTake500_length_le (s : String) : (pyTake500 s).length ≤ 500 := by
  have h : (pyTake500 s).length = (s.data.take 500).length := rfl
  rw [h, List.length_take]
  exact min_le_left _ _

/-! ### C10: the session guard is unreachable -/

/-- C10: after `_ensure_session` runs, the session field is non-`None`,
so the `SESSION_NOT_INITIALIZED` guard branch of `_request` never
fires: every call proceeds to the attempt loop (`requestAfterGuard`)
regardless of the prior session state. -/
theorem session_guard_unreachable :
    (∀ s : Option Session, (ensure_session s).isSome = true) ∧
    (∀ (env : Env) (session : Option Session) (method endpoint : String)
      (data params : Option Dict),
      _request env session method endpoint data params =
        requestAfterGuard env method endpoint data params) := by
  constructor
  · intro s
    obtain ⟨c, hc⟩ := ensure_session_isSome s
    rw [hc]
    rfl
  · intro env session method endpoint data params
    exact request_eq_afterGuard env session method endpoint data params

/-! ### C3: no network traffic when the provider is not operational -/

/-- C3: if the credential provider reports not-operational, `_request`
sends zero HTTP requests, calls refresh zero times, and returns a
`Failure` with category `AUTHENTICATION` (the
`AUTH_MANAGER_NOT_OPERATIONAL` error raised by `_get_headers`). -/
theorem no_network_when_provider_not_operational
    (env : Env) (session : Option Session) (method endpoint : String)
    (data params : Option Dict)
    (hop : env.isOperational = false) :
    (_request env session method endpoint data params).sent = [] ∧
    (_request env session method endpoint data params).refreshes = 0 ∧
    (_request env session method endpoint data params).errCategory =
      some .AUTHENTICATION ∧
    (_request env session method endpoint data params).errCode =
      some "AUTH_MANAGER_NOT_OPERATIONAL" := by
  have h0 : _get_headers env 0 = .error authManagerNotOperationalExc := by
    unfold _get_headers
    rw [hop]
    rfl
  have hA : oneAttempt env method (env.baseUrl ++ endpoint) data params 0 =
      .done Option.none false (.failure authManagerNotOperationalExc) := by
    unfold oneAttempt
    rw [h0]
  have hB : requestAfterGuard env method endpoint data params =
      { result := .failure authManagerNotOperationalExc, sent := [], refreshes := 0 } := by
    unfold requestAfterGuard
    simp only [requestLoop]
    rw [hA]
    rfl
  rw [request_eq_afterGuard, hB]
  exact ⟨rfl, rfl, rfl, rfl⟩

/-- Witness for C3 at a concrete non-operational environment. -/
theorem no_network_when_provider_not_operational_witness :
    (_request c3env Option.none "GET" "/om/maintainquote/api/v1/quotes"
      Option.none Option.none).sent = [] ∧
    (_request c3env Option.none "GET" "/om/maintainquote/api/v1/quotes"
      Option.none Option.none).refreshes = 0 ∧
    (_request c3env Option.none "GET" "/om/maintainquote/api/v1/quotes"
      Option.none Option.none).errCategory = some .AUTHENTICATION ∧
    (_request c3env Option.none "GET" "/om/maintainquote/api/v1/quotes"
      Option.none Option.none).errCode = some "AUTH_MANAGER_NOT_OPERATIONAL" :=
  no_network_when_provider_not_operational c3env Option.none "GET"
    "/om/maintainquote/api/v1/quotes" Option.none Option.none rfl


/-! ### C1: behaviour when every attempt receives HTTP 401 -/

/-- Counterexample to C1 as stated: with every attempt answered by
HTTP 401, `_request` does perform 2 sends and 1 refresh, but returns
the `API_ERROR_401` / `NETWORK` failure from the `status >= 400`
branch, not `TOKEN_REFRESH_FAILURE` / `AUTHENTICATION`: on the second
attempt the 401-retry guard (`attempt == 0`) fails, so the 401 falls
through to the generic error branch and the post-loop
`TOKEN_REFRESH_FAILURE` construction is dead code. -/
theorem all401_counterexample :
    (_request c1env Option.none "GET" "/om/maintainquote/api/v1/quotes"
      Option.none Option.none).sent.length = 2 ∧
    (_request c1env Option.none "GET" "/om/maintainquote/api/v1/quotes"
      Option.none Option.none).refreshes = 1 ∧
    (_request c1env Option.none "GET" "/om/maintainquote/api/v1/quotes"
      Option.none Option.none).errCode = some "API_ERROR_401" ∧
    (_request c1env Option.none "GET" "/om/maintainquote/api/v1/quotes"
      Option.none Option.none).errCode ≠ some "TOKEN_REFRESH_FAILURE" ∧
    (_request c1env Option.none "GET" "/om/maintainquote/api/v1/quotes"
      Option.none Option.none).errCategory = some .NETWORK ∧
    (_request c1env Option.none "GET" "/om/maintainquote/api/v1/quotes"
      Option.none Option.none).errCategory ≠ some .AUTHENTICATION := by
  refine ⟨rfl, rfl, by decide, by decide, rfl, by decide⟩

/-- C1 (amended): for every execution in which both send attempts
receive HTTP 401 (operational provider, token fetches succeeding,
refresh returning normally), the engine performs exactly 2 send
attempts and exactly 1 refresh-token call and returns a `Failure`
whose error has code `API_ERROR_401` and category `NETWORK`. -/
theorem all401_two_sends_one_refresh_api_error_401
    (env : Env) (session : Option Session) (method endpoint : String)
    (data params : Option Dict) (t0 t1 b0 b1 : String)
    (hop : env.isOperational = true)
    (ht0 : env.getToken 0 = .success t0) (ht1 : env.getToken 1 = .success t1)
    (hs0 : env.send 0 = .ok 401 b0) (hs1 : env.send 1 = .ok 401 b1)
    (hr : env.refresh = .ok ()) :
    (_request env session method endpoint data params).sent.length = 2 ∧
    (_request env session method endpoint data params).refreshes = 1 ∧
    (_request env session method endpoint data params).errCode =
      some "API_ERROR_401" ∧
    (_request env session method endpoint data params).errCategory =
      some .NETWORK := by
  have hA : oneAttempt env method (env.baseUrl ++ endpoint) data params 0 =
      .retry (builtRequest method (env.baseUrl ++ endpoint) data params t0) := by
    simp [oneAttempt, _get_headers, builtRequest, requestKwargs, hop, ht0, hs0, hr]
  have hB : oneAttempt env method (env.baseUrl ++ endpoint) data params 1 =
      .done (some (builtRequest method (env.baseUrl ++ endpoint) data params t1))
        false (.failure (apiErrorExc (env.baseUrl ++ endpoint) method 401 b1)) := by
    simp [oneAttempt, classifyResponse, _get_headers, builtRequest, requestKwargs,
      hop, ht1, hs1]
  have hC : requestAfterGuard env method endpoint data params =
      { result := .failure (apiErrorExc (env.baseUrl ++ endpoint) method 401 b1)
        sent := [builtRequest method (env.baseUrl ++ endpoint) data params t0,
                 builtRequest method (env.baseUrl ++ endpoint) data params t1]
        refreshes := 1 } := by
    unfold requestAfterGuard
    simp only [requestLoop]
    simp only [hA, hB]
    rfl
  rw [request_eq_afterGuard, hC]
  refine ⟨rfl, rfl, ?_, rfl⟩
  show some ("API_ERROR_" ++ toString 401) = some "API_ERROR_401"
  rfl

/-- Witness for the amended C1 at a concrete all-401 environment. -/
theorem all401_two_sends_one_refresh_api_error_401_witness :
    (_request c1env Option.none "POST" "/om/maintainquote/api/v1/maintain-quotes"
      Option.none Option.none).sent.length = 2 ∧
    (_request c1env Option.none "POST" "/om/maintainquote/api/v1/maintain-quotes"
      Option.none Option.none).refreshes = 1 ∧
    (_request c1env Option.none "POST" "/om/maintainquote/api/v1/maintain-quotes"
      Option.none Option.none).errCode = some "API_ERROR_401" ∧
    (_request c1env Option.none "POST" "/om/maintainquote/api/v1/maintain-quotes"
      Option.none Option.none).errCategory = some .NETWORK :=
  all401_two_sends_one_refresh_api_error_401 c1env Option.none "POST"
    "/om/maintainquote/api/v1/maintain-quotes" Option.none Option.none
    "tok" "tok" "Unauthorized" "Unauthorized" rfl rfl rfl rfl rfl rfl


/-! ### C2: 401-then-200 retry, and only 401 triggers a retry -/

theorem oneAttempt0_done_of_not401 (env : Env) (method full_url : String)
    (data params : Option Dict) (st : Nat) (b : String)
    (hsend : env.send 0 = .ok st b) (hst : st ≠ 401) :
    ∃ sq r, oneAttempt env method full_url data params 0 = .done sq false r := by
  cases hh : _get_headers env 0 with
  | error e =>
    exact ⟨Option.none, .failure e, by simp [oneAttempt, hh]⟩
  | ok hd =>
    exact ⟨some (requestKwargs method full_url data params hd),
      classifyResponse env.parse full_url method st b,
      by simp [oneAttempt, hh, hsend, hst]⟩

/-- C2: (a) with response sequence [401, 200-with-parseable-body] the
engine returns `Success` of the parsed body, having sent exactly 2
requests and called refresh exactly once; (b) a first response with any
status other than 401 never triggers a retry: at most 1 request is
sent and refresh is never called. -/
theorem retry_then_succeed_and_only_401_retries :
    (∀ (env : Env) (session : Option Session) (method endpoint : String)
      (data params : Option Dict) (t0 t1 b0 body : String) (v : PyVal),
      env.isOperational = true →
      env.getToken 0 = .success t0 → env.getToken 1 = .success t1 →
      env.send 0 = .ok 401 b0 → env.refresh = .ok () →
      env.send 1 = .ok 200 body → body ≠ "" → env.parse body = some v →
      (_request env session method endpoint data params).result = .success v ∧
      (_request env session method endpoint data params).sent.length = 2 ∧
      (_request env session method endpoint data params).refreshes = 1) ∧
    (∀ (env : Env) (session : Option Session) (method endpoint : String)
      (data params : Option Dict) (st : Nat) (b : String),
      env.send 0 = .ok st b → st ≠ 401 →
      (_request env session method endpoint data params).sent.length ≤ 1 ∧
      (_request env session method endpoint data params).refreshes = 0) := by
  constructor
  · intro env session method endpoint data params t0 t1 b0 body v
      hop ht0 ht1 hs0 hr hs1 hbody hparse
    have hA : oneAttempt env method (env.baseUrl ++ endpoint) data params 0 =
        .retry (builtRequest method (env.baseUrl ++ endpoint) data params t0) := by
      simp [oneAttempt, _get_headers, builtRequest, requestKwargs, hop, ht0, hs0, hr]
    have hB : oneAttempt env method (env.baseUrl ++ endpoint) data params 1 =
        .done (some (builtRequest method (env.baseUrl ++ endpoint) data params t1))
          false (.success v) := by
      simp [oneAttempt, classifyResponse, _get_headers, builtRequest, requestKwargs,
        hop, ht1, hs1, hbody, hparse]
    have hC : requestAfterGuard env method endpoint data params =
        { result := .success v
          sent := [builtRequest method (env.baseUrl ++ endpoint) data params t0,
                   builtRequest method (env.baseUrl ++ endpoint) data params t1]
          refreshes := 1 } := by
      unfold requestAfterGuard
      simp only [requestLoop]
      simp only [hA, hB]
      rfl
    rw [request_eq_afterGuard, hC]
    exact ⟨rfl, rfl, rfl⟩
  · intro env session method endpoint data params st b hsend hst
    obtain ⟨sq, r, ho⟩ :=
      oneAttempt0_done_of_not401 env method (env.baseUrl ++ endpoint)
        data params st b hsend hst
    rw [request_eq_afterGuard]
    unfold requestAfterGuard
    simp only [requestLoop]
    rw [ho]
    cases sq <;> simp

/-- Witness for C2 at a concrete 401-then-200 environment. -/
theorem retry_then_succeed_and_only_401_retries_witness :
    (_request c2env Option.none "GET" "/widgets/42"
      Option.none Option.none).result = .success (.int 42) ∧
    (_request c2env Option.none "GET" "/widgets/42"
      Option.none Option.none).sent.length = 2 ∧
    (_request c2env Option.none "GET" "/widgets/42"
      Option.none Option.none).refreshes = 1 :=
  retry_then_succeed_and_only_401_retries.1 c2env Option.none "GET" "/widgets/42"
    Option.none Option.none "tok" "tok" "expired" "body" (.int 42)
    rfl rfl rfl rfl rfl rfl (by decide) rfl


/-! ### C4 and C5: classification of the final attempt's response -/

theorem errCode_of_failure (t : ReqTrace) (e : BRIDealException)
    (h : t.result = .failure e) : t.errCode = some e.context.code := by
  unfold ReqTrace.errCode
  rw [h]

theorem errCategory_of_failure (t : ReqTrace) (e : BRIDealException)
    (h : t.result = .failure e) : t.errCategory = some e.context.category := by
  unfold ReqTrace.errCategory
  rw [h]

theorem errDetail_of_failure (t : ReqTrace) (e : BRIDealException) (key : String)
    (h : t.result = .failure e) :
    t.errDetail key = e.context.details.lookup key := by
  unfold ReqTrace.errDetail
  rw [h]

/-- The final attempt's response (status, body) determines the returned
result through `classifyResponse`: either attempt 0 answered with a
non-401 status, or attempt 0 answered 401, refresh succeeded, and
attempt 1 answered (with any status). -/
theorem request_result_eq_classify
    (env : Env) (session : Option Session) (method endpoint : String)
    (data params : Option Dict) (st : Nat) (body t0 t1 : String)
    (hop : env.isOperational = true)
    (ht0 : env.getToken 0 = .success t0) (ht1 : env.getToken 1 = .success t1)
    (hfin : (env.send 0 = .ok st body ∧ st ≠ 401) ∨
      ((∃ b0, env.send 0 = .ok 401 b0) ∧ env.refresh = .ok () ∧
        env.send 1 = .ok st body)) :
    (_request env session method endpoint data params).result =
      classifyResponse env.parse (env.baseUrl ++ endpoint) method st body := by
  rw [request_eq_afterGuard]
  rcases hfin with ⟨hs0, hst⟩ | ⟨⟨b0, hs0⟩, hr, hs1⟩
  · have hA : oneAttempt env method (env.baseUrl ++ endpoint) data params 0 =
        .done (some (builtRequest method (env.baseUrl ++ endpoint) data params t0))
          false (classifyResponse env.parse (env.baseUrl ++ endpoint) method st body) := by
      simp [oneAttempt, _get_headers, builtRequest, requestKwargs, hop, ht0, hs0, hst]
    unfold requestAfterGuard
    simp only [requestLoop]
    rw [hA]
  · have hA : oneAttempt env method (env.baseUrl ++ endpoint) data params 0 =
        .retry (builtRequest method (env.baseUrl ++ endpoint) data params t0) := by
      simp [oneAttempt, _get_headers, builtRequest, requestKwargs, hop, ht0, hs0, hr]
    have hB : oneAttempt env method (env.baseUrl ++ endpoint) data params 1 =
        .done (some (builtRequest method (env.baseUrl ++ endpoint) data params t1))
          false (classifyResponse env.parse (env.baseUrl ++ endpoint) method st body) := by
      simp [oneAttempt, _get_headers, builtRequest, requestKwargs, hop, ht1, hs1]
    unfold requestAfterGuard
    simp only [requestLoop]
    simp only [hA, hB]

/-- C4: when the final attempt's status is below 400, an empty body
yields `Success(None)`, a parseable body yields `Success` of the parsed
value, and a non-empty unparseable body yields a `JSON_DECODE_ERROR` /
`NETWORK` failure whose `response` detail is the raw body truncated to
at most 500 characters. -/
theorem success_status_body_classification
    (env : Env) (session : Option Session) (method endpoint : String)
    (data params : Option Dict) (st : Nat) (body t0 t1 : String)
    (hop : env.isOperational = true)
    (ht0 : env.getToken 0 = .success t0) (ht1 : env.getToken 1 = .success t1)
    (hfin : (env.send 0 = .ok st body ∧ st ≠ 401) ∨
      ((∃ b0, env.send 0 = .ok 401 b0) ∧ env.refresh = .ok () ∧
        env.send 1 = .ok st body))
    (hlt : st < 400) :
    (body = "" →
      (_request env session method endpoint data params).result =
        .success PyVal.none) ∧
    (∀ v, body ≠ "" → env.parse body = some v →
      (_request env session method endpoint data params).result = .success v) ∧
    (body ≠ "" → env.parse body = Option.none →
      (_request env session method endpoint data params).errCode =
        some "JSON_DECODE_ERROR" ∧
      (_request env session method endpoint data params).errCategory =
        some .NETWORK ∧
      (_request env session method endpoint data params).errDetail "response" =
        some (.str (pyTake500 body)) ∧
      (pyTake500 body).length ≤ 500) := by
  have hge : ¬ st ≥ 400 := by omega
  have hres := request_result_eq_classify env session method endpoint data params
    st body t0 t1 hop ht0 ht1 hfin
  refine ⟨fun hb => ?_, fun v hb hp => ?_, fun hb hp => ?_⟩
  · rw [hres]
    simp [classifyResponse, hge, hb]
  · rw [hres]
    simp [classifyResponse, hge, hb, hp]
  · have hfail : (_request env session method endpoint data params).result =
        .failure (jsonDecodeErrorExc (env.baseUrl ++ endpoint) method body) := by
      rw [hres]
      simp [classifyResponse, hge, hb, hp]
    refine ⟨errCode_of_failure _ _ hfail, errCategory_of_failure _ _ hfail, ?_, ?_⟩
    · rw [errDetail_of_failure _ _ _ hfail]
      rfl
    · exact pyTake500_length_le body

/-- Witness for C4 at a concrete HTTP-200 environment whose body the
JSON decoder rejects. -/
theorem success_status_body_classification_witness :
    (_request c4env Option.none "GET" "/widgets/42" Option.none Option.none).errCode =
      some "JSON_DECODE_ERROR" ∧
    (_request c4env Option.none "GET" "/widgets/42" Option.none Option.none).errCategory =
      some .NETWORK ∧
    (_request c4env Option.none "GET" "/widgets/42" Option.none Option.none).errDetail
      "response" = some (.str (pyTake500 "not json")) ∧
    (pyTake500 "not json").length ≤ 500 :=
  (success_status_body_classification c4env Option.none "GET" "/widgets/42"
    Option.none Option.none 200 "not json" "tok" "tok" rfl rfl rfl
    (Or.inl ⟨rfl, by decide⟩) (by decide)).2.2 (by decide) rfl

/-- C5: when the final attempt's status is 400 or greater (without
triggering the 401 retry), the result is a `Failure` with code
`API_ERROR_<status>`, category `NETWORK`, and details carrying the URL,
the method, the status, and a `response` field of at most 500
characters, for every response body. -/
theorem error_status_classification_truncates_response
    (env : Env) (session : Option Session) (method endpoint : String)
    (data params : Option Dict) (st : Nat) (body t0 t1 : String)
    (hop : env.isOperational = true)
    (ht0 : env.getToken 0 = .success t0) (ht1 : env.getToken 1 = .success t1)
    (hfin : (env.send 0 = .ok st body ∧ st ≠ 401) ∨
      ((∃ b0, env.send 0 = .ok 401 b0) ∧ env.refresh = .ok () ∧
        env.send 1 = .ok st body))
    (hge : st ≥ 400) :
    (_request env session method endpoint data params).errCode =
      some ("API_ERROR_" ++ toString st) ∧
    (_request env session method endpoint data params).errCategory =
      some .NETWORK ∧
    (_request env session method endpoint data params).errDetail "url" =
      some (.str (env.baseUrl ++ endpoint)) ∧
    (_request env session method endpoint data params).errDetail "method" =
      some (.str method) ∧
    (_request env session method endpoint data params).errDetail "status" =
      some (.nat st) ∧
    (_request env session method endpoint data params).errDetail "response" =
      some (.str (pyTake500 body)) ∧
    (pyTake500 body).length ≤ 500 := by
  have hres := request_result_eq_classify env session method endpoint data params
    st body t0 t1 hop ht0 ht1 hfin
  have hfail : (_request env session method endpoint data params).result =
      .failure (apiErrorExc (env.baseUrl ++ endpoint) method st body) := by
    rw [hres]
    simp [classifyResponse, hge]
  refine ⟨errCode_of_failure _ _ hfail, errCategory_of_failure _ _ hfail,
    ?_, ?_, ?_, ?_, pyTake500_length_le body⟩
  · rw [errDetail_of_failure _ _ _ hfail]
    rfl
  · rw [errDetail_of_failure _ _ _ hfail]
    rfl
  · rw [errDetail_of_failure _ _ _ hfail]
    rfl
  · rw [errDetail_of_failure _ _ _ hfail]
    rfl

/-- Witness for C5 at a concrete HTTP-500 environment whose body has
10,000 characters. -/
theorem error_status_classification_truncates_response_witness :
    (_request c5env Option.none "GET" "/widgets/42" Option.none Option.none).errCode =
      some ("API_ERROR_" ++ toString 500) ∧
    (_request c5env Option.none "GET" "/widgets/42" Option.none Option.none).errCategory =
      some .NETWORK ∧
    (_request c5env Option.none "GET" "/widgets/42" Option.none Option.none).errDetail
      "url" = some (.str (c5env.baseUrl ++ "/widgets/42")) ∧
    (_request c5env Option.none "GET" "/widgets/42" Option.none Option.none).errDetail
      "method" = some (.str "GET") ∧
    (_request c5env Option.none "GET" "/widgets/42" Option.none Option.none).errDetail
      "status" = some (.nat 500) ∧
    (_request c5env Option.none "GET" "/widgets/42" Option.none Option.none).errDetail
      "response" = some (.str (pyTake500 bigBody)) ∧
    (pyTake500 bigBody).length ≤ 500 :=
  error_status_classification_truncates_response c5env Option.none "GET"
    "/widgets/42" Option.none Option.none 500 bigBody "tok" "tok" rfl rfl rfl
    (Or.inl ⟨rfl, by decide⟩) (by decide)


/-! ### C6: transport exceptions are wrapped, never propagated -/

/-- C6: whenever the transport raises an `aiohttp.ClientError` (on
either send attempt, or during the refresh call), `_request` still
returns a `Result` — the exception cannot propagate, since the
embedding of the `try` body is total — and that result is a `Failure`
with category `NETWORK`, code `AIOHTTP_CLIENT_ERROR` (ending in
`_CLIENT_ERROR`), whose details preserve the exception's type name and
message. -/
theorem client_error_wrapped_never_propagates
    (env : Env) (session : Option Session) (method endpoint : String)
    (data params : Option Dict) (etype emsg t0 t1 : String)
    (hop : env.isOperational = true)
    (ht0 : env.getToken 0 = .success t0) (ht1 : env.getToken 1 = .success t1)
    (hexc : env.send 0 = .exc (.clientError etype emsg) ∨
      ((∃ b0, env.send 0 = .ok 401 b0) ∧
        (env.refresh = .error (.clientError etype emsg) ∨
          (env.refresh = .ok () ∧ env.send 1 = .exc (.clientError etype emsg))))) :
    (_request env session method endpoint data params).errCode =
      some "AIOHTTP_CLIENT_ERROR" ∧
    (∃ pre, (_request env session method endpoint data params).errCode =
      some (pre ++ "_CLIENT_ERROR")) ∧
    (_request env session method endpoint data params).errCategory =
      some .NETWORK ∧
    (_request env session method endpoint data params).errDetail "error_type" =
      some (.str etype) ∧
    (_request env session method endpoint data params).errDetail "original_error" =
      some (.str emsg) := by
  have hfail : (_request env session method endpoint data params).result =
      .failure (handleExc (env.baseUrl ++ endpoint) method (.clientError etype emsg)) := by
    rw [request_eq_afterGuard]
    rcases hexc with hs0 | ⟨⟨b0, hs0⟩, href⟩
    · have hA : oneAttempt env method (env.baseUrl ++ endpoint) data params 0 =
          .done (some (builtRequest method (env.baseUrl ++ endpoint) data params t0))
            false (.failure (handleExc (env.baseUrl ++ endpoint) method
              (.clientError etype emsg))) := by
        simp [oneAttempt, _get_headers, builtRequest, requestKwargs, hop, ht0, hs0]
      unfold requestAfterGuard
      simp only [requestLoop]
      rw [hA]
    · rcases href with hr | ⟨hr, hs1⟩
      · have hA : oneAttempt env method (env.baseUrl ++ endpoint) data params 0 =
            .done (some (builtRequest method (env.baseUrl ++ endpoint) data params t0))
              true (.failure (handleExc (env.baseUrl ++ endpoint) method
                (.clientError etype emsg))) := by
          simp [oneAttempt, _get_headers, builtRequest, requestKwargs, hop, ht0, hs0, hr]
        unfold requestAfterGuard
        simp only [requestLoop]
        rw [hA]
      · have hA : oneAttempt env method (env.baseUrl ++ endpoint) data params 0 =
            .retry (builtRequest method (env.baseUrl ++ endpoint) data params t0) := by
          simp [oneAttempt, _get_headers, builtRequest, requestKwargs, hop, ht0, hs0, hr]
        have hB : oneAttempt env method (env.baseUrl ++ endpoint) data params 1 =
            .done (some (builtRequest method (env.baseUrl ++ endpoint) data params t1))
              false (.failure (handleExc (env.baseUrl ++ endpoint) method
                (.clientError etype emsg))) := by
          simp [oneAttempt, _get_headers, builtRequest, requestKwargs, hop, ht1, hs1]
        unfold requestAfterGuard
        simp only [requestLoop]
        simp only [hA, hB]
  refine ⟨errCode_of_failure _ _ hfail, ⟨"AIOHTTP", ?_⟩,
    errCategory_of_failure _ _ hfail, ?_, ?_⟩
  · rw [errCode_of_failure _ _ hfail]
    rfl
  · rw [errDetail_of_failure _ _ _ hfail]
    rfl
  · rw [errDetail_of_failure _ _ _ hfail]
    rfl

/-- Witness for C6 at a concrete connection-refused environment. -/
theorem client_error_wrapped_never_propagates_witness :
    (_request c6env Option.none "GET" "/widgets/42" Option.none Option.none).errCode =
      some "AIOHTTP_CLIENT_ERROR" ∧
    (∃ pre, (_request c6env Option.none "GET" "/widgets/42"
      Option.none Option.none).errCode = some (pre ++ "_CLIENT_ERROR")) ∧
    (_request c6env Option.none "GET" "/widgets/42" Option.none Option.none).errCategory =
      some .NETWORK ∧
    (_request c6env Option.none "GET" "/widgets/42" Option.none Option.none).errDetail
      "error_type" = some (.str "ClientConnectorError") ∧
    (_request c6env Option.none "GET" "/widgets/42" Option.none Option.none).errDetail
      "original_error" = some (.str "Cannot connect to host") :=
  client_error_wrapped_never_propagates c6env Option.none "GET" "/widgets/42"
    Option.none Option.none "ClientConnectorError" "Cannot connect to host"
    "tok" "tok" rfl rfl rfl (Or.inl rfl)

/-! ### C7: health check tolerates 404 and wraps other failures -/

/-- C7: on an operational client, a successful probe read yields
`Success(true)`; a failed probe whose details record HTTP status 404
also yields `Success(true)`; any other probe failure yields a
`HEALTH_CHECK_API_FAILURE` failure whose details are the underlying
error's context fields (`vars(...)`), not discarded. -/
theorem health_check_tolerates_404_wraps_other_failures
    (env : Env) (session : Option Session)
    (hop : env.isOperational = true) :
    (∀ v, (get_maintain_quote_details env session "HEALTHCHECK_TEST_QUOTE").result =
        .success v → health_check env session = .success true) ∧
    (∀ e, (get_maintain_quote_details env session "HEALTHCHECK_TEST_QUOTE").result =
        .failure e → statusIs404 (e.context.details.lookup "status") = true →
      health_check env session = .success true) ∧
    (∀ e, (get_maintain_quote_details env session "HEALTHCHECK_TEST_QUOTE").result =
        .failure e → statusIs404 (e.context.details.lookup "status") = false →
      health_check env session = .failure { context :=
        { code := "HEALTH_CHECK_API_FAILURE"
          message := "JD Maintain Quote API health check failed."
          severity := .MEDIUM
          category := .NETWORK
          details := ctxVars e.context } }) := by
  refine ⟨fun v hv => ?_, fun e he h404 => ?_, fun e he h404 => ?_⟩
  · simp [health_check, hop, hv]
  · simp [health_check, hop, he, h404]
  · simp [health_check, hop, he, h404]

/-- Witness for C7 at a concrete environment whose probe receives
HTTP 404. -/
theorem health_check_tolerates_404_wraps_other_failures_witness :
    health_check c7env Option.none = .success true :=
  (health_check_tolerates_404_wraps_other_failures c7env Option.none rfl).2.1
    (apiErrorExc (c7env.baseUrl ++
        ("/om/maintainquote/api/v1/quotes/" ++ "HEALTHCHECK_TEST_QUOTE" ++
          "/maintain-quote-details")) "GET" 404 "Not Found")
    rfl rfl


/-! ### C8: session creation is serialized by the per-instance lock -/

theorem lockInv_init : LockInv lockInit := by
  refine ⟨by simp [lockInit], fun _ => by simp [lockInit], fun i hi => ?_⟩
  rcases hi with h | h <;> simp [lockInit] at h

theorem lockInv_step (s : LockSys) (i : Fin 2) (h : LockInv s) :
    LockInv (lockStep s i) := by
  obtain ⟨h1, h2, h3⟩ := h
  cases hpc : s.pc i with
  | atAcquire =>
    cases hl : s.lockHeld with
    | none =>
      have hstep : lockStep s i =
          { sessionLive := s.sessionLive, lockHeld := some i,
            pc := Function.update s.pc i .inCrit, creations := s.creations } := by
        unfold lockStep
        rw [hpc, hl]
      rw [hstep]
      refine ⟨h1, h2, fun k hk => ?_⟩
      simp only [inLockRegion] at hk ⊢
      by_cases hki : k = i
      · subst hki
        rfl
      · rw [Function.update_apply, if_neg hki] at hk
        have := h3 k hk
        rw [hl] at this
        exact absurd this (by simp)
    | some j =>
      have hstep : lockStep s i = s := by
        unfold lockStep
        rw [hpc, hl]
      rw [hstep]
      exact ⟨h1, h2, h3⟩
  | inCrit =>
    cases hsl : s.sessionLive with
    | true =>
      have hstep : lockStep s i =
          { sessionLive := true, lockHeld := s.lockHeld,
            pc := Function.update s.pc i .atRelease, creations := s.creations } := by
        unfold lockStep
        rw [hpc, hsl]
        rfl
      rw [hstep]
      refine ⟨h1, fun hc => absurd hc (by simp), fun k hk => ?_⟩
      simp only [inLockRegion] at hk ⊢
      by_cases hki : k = i
      · subst hki
        exact h3 k (Or.inl hpc)
      · rw [Function.update_apply, if_neg hki] at hk
        exact h3 k hk
    | false =>
      have hc0 : s.creations = 0 := h2 hsl
      have hstep : lockStep s i =
          { sessionLive := true, lockHeld := s.lockHeld,
            pc := Function.update s.pc i .atRelease,
            creations := s.creations + 1 } := by
        unfold lockStep
        rw [hpc, hsl]
        rfl
      rw [hstep]
      refine ⟨by simp [hc0], fun hc => absurd hc (by simp), fun k hk => ?_⟩
      simp only [inLockRegion] at hk ⊢
      by_cases hki : k = i
      · subst hki
        exact h3 k (Or.inl hpc)
      · rw [Function.update_apply, if_neg hki] at hk
        exact h3 k hk
  | atRelease =>
    have hstep : lockStep s i =
        { sessionLive := s.sessionLive, lockHeld := Option.none,
          pc := Function.update s.pc i .finished, creations := s.creations } := by
      unfold lockStep
      rw [hpc]
    rw [hstep]
    refine ⟨h1, h2, fun k hk => ?_⟩
    simp only [inLockRegion] at hk
    by_cases hki : k = i
    · subst hki
      rw [Function.update_apply, if_pos rfl] at hk
      rcases hk with hk | hk <;> exact absurd hk (by simp)
    · rw [Function.update_apply, if_neg hki] at hk
      have hklock := h3 k hk
      have hilock := h3 i (Or.inr hpc)
      rw [hilock] at hklock
      exact absurd (Option.some.inj hklock) (fun hik => hki hik.symm)
  | finished =>
    have hstep : lockStep s i = s := by
      unfold lockStep
      rw [hpc]
    rw [hstep]
    exact ⟨h1, h2, h3⟩

theorem lockInv_run (l : List (Fin 2)) :
    ∀ s, LockInv s → LockInv (lockRun s l) := by
  induction l with
  | nil => exact fun s h => h
  | cons i rest ih => exact fun s h => ih _ (lockInv_step s i h)

/-- C8: under every interleaving of two concurrent `_ensure_session`
callers starting from an absent (or closed) session, at most one fresh
session is ever created, and the lock serializes the open transition:
no two callers are ever simultaneously inside the lock-protected
check-and-create region. -/
theorem ensure_session_single_creation_serialized (sched : List (Fin 2)) :
    (lockRun lockInit sched).creations ≤ 1 ∧
    (∀ i j : Fin 2, inLockRegion (lockRun lockInit sched) i →
      inLockRegion (lockRun lockInit sched) j → i = j) := by
  obtain ⟨h1, _, h3⟩ := lockInv_run sched lockInit lockInv_init
  refine ⟨h1, fun i j hi hj => ?_⟩
  have hi' := h3 i hi
  have hj' := h3 j hj
  rw [hi'] at hj'
  exact Option.some.inj hj'

/-- Witness for C8 at a concrete alternating schedule: at most one
session creation occurs. -/
theorem ensure_session_single_creation_serialized_witness :
    (lockRun lockInit [0, 1, 0, 1, 0, 1, 0, 1]).creations ≤ 1 :=
  (ensure_session_single_creation_serialized [0, 1, 0, 1, 0, 1, 0, 1]).1

/-! ### C9: a body is attached only for POST/PUT/PATCH -/

theorem oneAttempt_sent_shape (env : Env) (method full_url : String)
    (data params : Option Dict) (a : Nat) :
    (∀ sq rf res, oneAttempt env method full_url data params a =
        .done (some sq) rf res → sq.json = jsonKwarg method data) ∧
    (∀ sq, oneAttempt env method full_url data params a = .retry sq →
      sq.json = jsonKwarg method data) := by
  cases hh : _get_headers env a with
  | error e =>
    constructor
    · intro sq rf res h
      simp [oneAttempt, hh] at h
    · intro sq h
      simp [oneAttempt, hh] at h
  | ok hd =>
    have hshape : ∀ sq : SentRequest,
        requestKwargs method full_url data params hd = sq →
        sq.json = jsonKwarg method data := by
      intro sq hsq
      rw [← hsq]
      rfl
    constructor
    · intro sq rf res h
      simp only [oneAttempt, hh] at h
      cases hs : env.send a with
      | exc e =>
        simp only [hs, AttemptOut.done.injEq, Option.some.injEq] at h
        exact hshape sq h.1
      | ok st b =>
        simp only [hs] at h
        by_cases hcond : st = 401 ∧ a = 0
        · rw [if_pos hcond] at h
          cases hr : env.refresh with
          | error ex =>
            simp only [hr, AttemptOut.done.injEq, Option.some.injEq] at h
            exact hshape sq h.1
          | ok u =>
            simp only [hr] at h
            exact absurd h (by simp)
        · rw [if_neg hcond] at h
          simp only [AttemptOut.done.injEq, Option.some.injEq] at h
          exact hshape sq h.1
    · intro sq h
      simp only [oneAttempt, hh] at h
      cases hs : env.send a with
      | exc e =>
        simp only [hs] at h
        exact absurd h (by simp)
      | ok st b =>
        simp only [hs] at h
        by_cases hcond : st = 401 ∧ a = 0
        · rw [if_pos hcond] at h
          cases hr : env.refresh with
          | error ex =>
            simp only [hr] at h
            exact absurd h (by simp)
          | ok u =>
            simp only [hr, AttemptOut.retry.injEq] at h
            exact hshape sq h
        · rw [if_neg hcond] at h
          exact absurd h (by simp)

theorem mem_sent_requestLoop (env : Env) (method full_url : String)
    (data params : Option Dict) (attempts : List Nat) :
    ∀ (acc : List SentRequest) (refr : Nat) (r : SentRequest),
      r ∈ (requestLoop env method full_url data params attempts acc refr).sent →
      r ∈ acc ∨ r.json = jsonKwarg method data := by
  induction attempts with
  | nil =>
    intro acc refr r h
    exact Or.inl h
  | cons a rest ih =>
    intro acc refr r h
    obtain ⟨hdone, hretry⟩ :=
      oneAttempt_sent_shape env method full_url data params a
    cases ho : oneAttempt env method full_url data params a with
    | done sq rf res =>
      simp only [requestLoop, ho] at h
      rw [List.mem_append] at h
      rcases h with h | h
      · exact Or.inl h
      · cases sq with
        | none => simp at h
        | some q =>
          simp at h
          rw [h]
          exact Or.inr (hdone q rf res ho)
    | retry sq =>
      simp only [requestLoop, ho] at h
      rcases ih (acc ++ [sq]) (refr + 1) r h with h' | h'
      · rw [List.mem_append] at h'
        rcases h' with h' | h'
        · exact Or.inl h'
        · simp at h'
          rw [h']
          exact Or.inr (hretry sq ho)
      · exact Or.inr h'

/-- C9: every HTTP request actually sent by `_request` carries the
`json` body keyword exactly when `method.upper()` is POST, PUT or
PATCH; for any other method (e.g. GET, DELETE) the supplied `data`
argument is dropped and no body keyword is attached. -/
theorem body_attached_only_for_post_put_patch
    (env : Env) (session : Option Session) (method endpoint : String)
    (data params : Option Dict) (r : SentRequest)
    (hmem : r ∈ (_request env session method endpoint data params).sent) :
    (pyUpper method ∈ ["POST", "PUT", "PATCH"] → r.json = some data) ∧
    (pyUpper method ∉ ["POST", "PUT", "PATCH"] → r.json = Option.none) := by
  rw [request_eq_afterGuard] at hmem
  unfold requestAfterGuard at hmem
  have hjson : r.json = jsonKwarg method data := by
    rcases mem_sent_requestLoop env method (env.baseUrl ++ endpoint) data params
      [0, 1] [] 0 r hmem with h | h
    · simp at h
    · exact h
  constructor <;> intro hm <;> rw [hjson] <;> simp [jsonKwarg, hm]

/-- Witness for C9: a GET carrying a data payload sends exactly one
request and that request has no body keyword attached. -/
theorem body_attached_only_for_post_put_patch_witness :
    (pyUpper "GET" ∈ ["POST", "PUT", "PATCH"] →
      c9req.json = some (some [("a", PyVal.int 1)])) ∧
    (pyUpper "GET" ∉ ["POST", "PUT", "PATCH"] → c9req.json = Option.none) :=
  body_attached_only_for_post_put_patch c9env Option.none "GET" "/widgets/42"
    (some [("a", PyVal.int 1)]) Option.none c9req (List.Mem.head _)

end BRIDeal
